import Mathlib

/-! # A verification model of `main.go`

The program dials an Azure Cosmos DB (MongoDB API) account with the `mgo` driver, runs
`testConcurrent` (one insert on the dialled session, one find on a copy of it, one
`getLastRequestStatistics` command on each) and returns.

The embedding is shallow.  Every function of `main.go` is a Lean function in the monad `Go`,
which threads a `World` (the store, a clock, the driver-side session table and the trace of
observable events) and reads an `Env` (the behaviour of everything outside the program: the
dial outcome, the store, the text rendering done by `fmt`).  Control flow follows Go:
`return` leaves the running function, deferred calls run when the function that registered
them returns, and `os.Exit` (hence `log.Fatal`) ends the process at once, without running
deferred calls.
-/

namespace CosmosDemo

/-! ## BSON data -/

/-- The BSON values the program handles.  A `float64` is kept as its bit pattern: the program
never computes with it, it only hands it to `fmt`. -/
inductive Value where
  | str (s : String)
  | int (i : Int)
  | oid (id : String)
  | float (bits : Nat)
  deriving DecidableEq, Repr

/-- A `bson.M` / `bson.D` document with scalar values. -/
abbrev Doc := List (String × Value)

/-- The Go map read `m[key]`, with `none` for Go's `nil` (also the result on a nil map). -/
def index (m : Option Doc) (key : String) : Option Value :=
  match m with
  | none => none
  | some d => d.lookup key

/-- The struct `Package` (main.go 27-34).  `bson.ObjectId` is a Go string type. -/
structure Package where
  Id : String := ""
  FullName : String := ""
  Description : String := ""
  StarsCount : Int := 0
  ForksCount : Int := 0
  LastUpdatedBy : String := ""
  deriving DecidableEq, Repr

/-- The document `bson` marshals a `Package` to: untagged fields go under their lower-cased
name, and the tag `_id,omitempty` drops an empty identifier. -/
def Package.toBSON (p : Package) : Doc :=
  (if p.Id = "" then [] else [("_id", Value.oid p.Id)]) ++
    [("fullname", Value.str p.FullName),
     ("description", Value.str p.Description),
     ("starscount", Value.int p.StarsCount),
     ("forkscount", Value.int p.ForksCount),
     ("lastupdatedby", Value.str p.LastUpdatedBy)]

/-- The Go string a value gives a field of kind string (`string` or `bson.ObjectId`): a BSON
string and an ObjectId both do, nothing else does. -/
def Value.asString : Value → Option String
  | Value.str s => some s
  | Value.oid s => some s
  | _ => none

/-- The Go integer a value gives a field of kind int: a BSON integer is taken as it is and a
`float64` is converted with `int64(f)`, which `conv` stands for (on the bit pattern of `f`);
nothing else is accepted. -/
def Value.asInt (conv : Nat → Int) : Value → Option Int
  | Value.int i => some i
  | Value.float bits => some (conv bits)
  | _ => none

/-- One element of a document read into a `Package`: the key selects the field (the lower-cased
field name, `_id` for `Id`), a value the field cannot take leaves the field as it is, and an
unknown key is dropped. -/
def Package.setElem (conv : Nat → Int) (p : Package) (key : String) (v : Value) : Package :=
  if key = "_id" then
    match v.asString with
    | some s => { p with Id := s }
    | none => p
  else if key = "fullname" then
    match v.asString with
    | some s => { p with FullName := s }
    | none => p
  else if key = "description" then
    match v.asString with
    | some s => { p with Description := s }
    | none => p
  else if key = "starscount" then
    match v.asInt conv with
    | some i => { p with StarsCount := i }
    | none => p
  else if key = "forkscount" then
    match v.asInt conv with
    | some i => { p with ForksCount := i }
    | none => p
  else if key = "lastupdatedby" then
    match v.asString with
    | some s => { p with LastUpdatedBy := s }
    | none => p
  else p

/-- What `bson.Unmarshal` leaves in a `Package`: the struct is first reset to its zero value,
then the elements of the document are read into it in order, so that of a repeated key the
last value stays. -/
def Package.fromBSON (conv : Nat → Int) (d : Doc) : Package :=
  d.foldl (fun acc kv => acc.setElem conv kv.1 kv.2) {}

/-! ## Driver types -/

/-- The value `time.Second` of type `time.Duration`, in nanoseconds. -/
def Second : Nat := 1000000000

/-- The `DialServer` callbacks the program can install: the only one is
`tls.Dial("tcp", addr.String(), &tls.Config{})`. -/
inductive Dialer where
  | tlsTcp
  deriving DecidableEq, Repr

/-- The fields of `mgo.DialInfo` that `main` sets. -/
structure DialInfo where
  Addrs : List String
  Timeout : Nat
  Database : String
  Username : String
  Password : String
  DialServer : Dialer
  deriving DecidableEq, Repr

/-- The struct `mgo.Safe`; `&mgo.Safe{}` is its zero value. -/
structure Safe where
  W : Int := 0
  WMode : String := ""
  WTimeout : Int := 0
  FSync : Bool := false
  J : Bool := false
  deriving DecidableEq, Repr

/-- A `*mgo.Session`: a logical session, named by its number in the driver. -/
structure Session where
  id : Nat
  deriving DecidableEq, Repr

/-- A `*mgo.Database`: a session and a database name. -/
structure Database where
  Session : Session
  Name : String
  deriving DecidableEq, Repr

/-- A `*mgo.Collection`: a database handle and a collection name. -/
structure Collection where
  Database : Database
  Name : String
  deriving DecidableEq, Repr

/-- The commands the program can send to the store.  An update document is one level of
operators over scalar documents, as in `bson.M{"$set": bson.M{...}}`. -/
inductive Request where
  | insert (coll : String) (doc : Doc)
  | findOne (coll : String) (filter : Doc)
  | update (coll : String) (selector : Doc) (change : List (String × Doc))
  | remove (coll : String) (selector : Doc)
  | run (cmd : Doc)
  deriving DecidableEq, Repr

/-- What the driver hands back for a request: Go's `err` (`none` is `nil`, otherwise the
text of the error), the result document if any, and the time the call took. -/
structure Reply where
  err : Option String
  doc : Option Doc
  latency : Nat
  deriving DecidableEq, Repr

/-- The observable actions of a run. -/
inductive Event where
  | dial (info : DialInfo)
  | stdout (text : String)
  | fatal (text : String)
  | exit (code : Nat)
  | setSafe (session : Nat) (safe : Option Safe)
  | copy (session : Nat) (fresh : Nat)
  | collection (session : Nat) (db : String) (name : String)
  | request (session : Nat) (db : String) (safe : Option Safe) (req : Request) (reply : Reply)
  | close (session : Nat)
  deriving DecidableEq, Repr

/-- A call registered with `defer`.  The program defers only `session.Close()`. -/
inductive Deferred where
  | close (session : Nat)
  deriving DecidableEq, Repr

/-! ## The program monad -/

/-- Everything outside the program.  `dialErr` is the error of `mgo.DialWithInfo` (`none`:
the dial succeeds), `dialSafe` the safety mode the driver gives a fresh session, `exec` the
store, the two renderers are the text `fmt` produces for a `time.Duration` under `%s` and
for an interface value under `%f`, and `floatToInt` is the conversion `int64(f)` of a
`float64`, given by its bit pattern. -/
structure Env (σ : Type) where
  dialErr : DialInfo → Option String
  dialSafe : Option Safe
  exec : σ → Nat → String → Request → Reply × σ
  fmtDuration : Nat → String
  fmtF : Option Value → String
  floatToInt : Nat → Int

/-- The state of a run.  `frames` holds, for every function that is running and was entered
through `func`, the calls it has deferred and not yet run, innermost function first. -/
structure World (σ : Type) where
  store : σ
  clock : Nat
  nextSession : Nat
  safety : Nat → Option Safe
  frames : List (List Deferred)
  trace : List Event

/-- How a statement ends: it falls through to the next one, it executes `return`, or the
process has exited with a status. -/
inductive Flow (α : Type) where
  | next (a : α)
  | returned
  | exited (code : Nat)
  deriving DecidableEq, Repr

/-- A Go computation. -/
def Go (σ α : Type) : Type := Env σ → World σ → Flow α × World σ

/-- Sequencing: the second statement runs only when the first fell through. -/
def Go.bind {σ α β : Type} (m : Go σ α) (f : α → Go σ β) : Go σ β := fun env w =>
  match m env w with
  | (Flow.next a, w1) => f a env w1
  | (Flow.returned, w1) => (Flow.returned, w1)
  | (Flow.exited c, w1) => (Flow.exited c, w1)

/-- A statement that falls through with a value. -/
def Go.pure {σ α : Type} (a : α) : Go σ α := fun _ w => (Flow.next a, w)

instance {σ : Type} : Monad (Go σ) where
  pure := Go.pure
  bind := Go.bind

/-- Appends an event to the trace. -/
def emit {σ : Type} (e : Event) : Go σ Unit := fun _ w =>
  (Flow.next (), { w with trace := w.trace ++ [e] })

/-- The statement `return`. -/
def ret {σ α : Type} : Go σ α := fun _ w => (Flow.returned, w)

/-- The call `os.Exit(code)`: the process ends here; deferred calls are not run. -/
def osExit {σ α : Type} (code : Nat) : Go σ α := fun _ w =>
  (Flow.exited code, { w with trace := w.trace ++ [Event.exit code] })

/-- The call `log.Fatal(text)`: the message goes to the standard logger, then `os.Exit(1)`. -/
def logFatal {σ α : Type} (text : String) : Go σ α := fun _ w =>
  (Flow.exited 1, { w with trace := w.trace ++ [Event.fatal text, Event.exit 1] })

/-- A write of `text` to standard output (`fmt.Printf` with the text already rendered). -/
def printf {σ : Type} (text : String) : Go σ Unit := emit (Event.stdout text)

/-- The call `fmt.Println(text)`. -/
def println {σ : Type} (text : String) : Go σ Unit := emit (Event.stdout (text ++ "\n"))

/-- Runs one deferred call. -/
def runDeferred {σ : Type} (d : Deferred) (w : World σ) : World σ :=
  match d with
  | Deferred.close s => { w with trace := w.trace ++ [Event.close s] }

/-- The deferred calls of the innermost running function. -/
def World.pending {σ : Type} (w : World σ) : List Deferred := w.frames.headD []

/-- A function body run as a call: it starts with no deferred calls of its own; when the body
falls off its end or returns, its deferred calls run, last registered first, and the caller
goes on; when the process exited inside, nothing more happens and the deferred calls stay
where they are, not run. -/
def func {σ : Type} (body : Go σ Unit) : Go σ Unit := fun env w =>
  match body env { w with frames := [] :: w.frames } with
  | (Flow.exited c, w1) => (Flow.exited c, w1)
  | (_, w1) =>
      (Flow.next (),
        { (w1.pending.foldl (fun acc d => runDeferred d acc) w1) with frames := w1.frames.tail })

/-- The statement `defer d`: the call is pushed on the list of the running function. -/
def defer {σ : Type} (d : Deferred) : Go σ Unit := fun _ w =>
  (Flow.next (), { w with frames := (d :: w.pending) :: w.frames.tail })

/-! ## Driver operations -/

/-- The call `mgo.DialWithInfo(info)`: on success a fresh session in the initial safety mode
of the driver.  On failure the session returned is nil; the program never uses it, and the
number given here stands for no session. -/
def DialWithInfo {σ : Type} (info : DialInfo) : Go σ (Session × Option String) := fun env w =>
  match env.dialErr info with
  | some e => (Flow.next (⟨w.nextSession⟩, some e), { w with trace := w.trace ++ [Event.dial info] })
  | none =>
      (Flow.next (⟨w.nextSession⟩, none),
        { w with
          nextSession := w.nextSession + 1
          safety := fun s => if s = w.nextSession then env.dialSafe else w.safety s
          trace := w.trace ++ [Event.dial info] })

/-- The call `session.SetSafe(safe)`; `none` is the nil argument, which puts the session in
fire-and-forget mode. -/
def Session.SetSafe {σ : Type} (session : Session) (safe : Option Safe) : Go σ Unit := fun _ w =>
  (Flow.next (),
    { w with
      safety := fun s => if s = session.id then safe else w.safety s
      trace := w.trace ++ [Event.setSafe session.id safe] })

/-- The call `session.Copy()`: a fresh logical session with the settings of the original,
its safety mode included. -/
def Session.Copy {σ : Type} (session : Session) : Go σ Session := fun _ w =>
  (Flow.next ⟨w.nextSession⟩,
    { w with
      nextSession := w.nextSession + 1
      safety := fun s => if s = w.nextSession then w.safety session.id else w.safety s
      trace := w.trace ++ [Event.copy session.id w.nextSession] })

/-- The call `session.DB(name)`. -/
def Session.DB (session : Session) (name : String) : Database := ⟨session, name⟩

/-- The call `db.C(name)`: the collection handle. -/
def Database.C {σ : Type} (db : Database) (name : String) : Go σ Collection := fun _ w =>
  (Flow.next ⟨db, name⟩,
    { w with trace := w.trace ++ [Event.collection db.Session.id db.Name name] })

/-- One request to the store on a session: the store answers and moves on, the clock
advances by the latency of the call, and the request is recorded with the safety mode the
session has at that moment. -/
def send {σ : Type} (db : Database) (req : Request) : Go σ Reply := fun env w =>
  let r := env.exec w.store db.Session.id db.Name req
  (Flow.next r.1,
    { w with
      store := r.2
      clock := w.clock + r.1.latency
      trace := w.trace ++ [Event.request db.Session.id db.Name (w.safety db.Session.id) req r.1] })

/-- The call `collection.Insert(&p)`. -/
def Collection.Insert {σ : Type} (c : Collection) (p : Package) : Go σ (Option String) := do
  let r ← send c.Database (Request.insert c.Name p.toBSON)
  pure r.err

/-- The conversion `int64(f)` of the runtime. -/
def floatConv {σ : Type} : Go σ (Nat → Int) := fun env w => (Flow.next env.floatToInt, w)

/-- The call `collection.Find(filter).One(&result)`: the new value of `result` and the error.
With no error the document found is unmarshalled into `result`; with an error `result` is not
touched. -/
def Collection.FindOne {σ : Type} (c : Collection) (filter : Doc) (result : Package) :
    Go σ (Package × Option String) := do
  let r ← send c.Database (Request.findOne c.Name filter)
  let conv ← floatConv
  match r.err, r.doc with
  | none, some d => pure (Package.fromBSON conv d, none)
  | err, _ => pure (result, err)

/-- The call `collection.Update(selector, change)`. -/
def Collection.Update {σ : Type} (c : Collection) (selector : Doc) (change : List (String × Doc)) :
    Go σ (Option String) := do
  let r ← send c.Database (Request.update c.Name selector change)
  pure r.err

/-- The call `collection.Remove(selector)`. -/
def Collection.Remove {σ : Type} (c : Collection) (selector : Doc) : Go σ (Option String) := do
  let r ← send c.Database (Request.remove c.Name selector)
  pure r.err

/-- The call `db.Run(cmd, &result)`: the new value of `result` and the error. -/
def Database.Run {σ : Type} (db : Database) (cmd : Doc) (result : Option Doc) :
    Go σ (Option Doc × Option String) := do
  let r ← send db (Request.run cmd)
  match r.doc with
  | some d => pure (some d, r.err)
  | none => pure (result, r.err)

/-- The call `time.Now()`. -/
def timeNow {σ : Type} : Go σ Nat := fun _ w => (Flow.next w.clock, w)

/-- The call `time.Since(start)`. -/
def timeSince {σ : Type} (start : Nat) : Go σ Nat := fun _ w => (Flow.next (w.clock - start), w)

/-- The text of a duration under the verb `%s`. -/
def sprintDuration {σ : Type} (d : Nat) : Go σ String := fun env w => (Flow.next (env.fmtDuration d), w)

/-- The text of an interface value under the verb `%f`. -/
def sprintF {σ : Type} (v : Option Value) : Go σ String := fun env w => (Flow.next (env.fmtF v), w)

/-! ## The functions of `main.go` -/

/-- The function `printCharge` (main.go 162-165). -/
def printCharge {σ : Type} (m : Option Doc) : Go σ Unit := func do
  printf ("Charge: " ++ (← sprintF (index m "RequestCharge")))
  println ""

/-- The function `getStats` (main.go 173-192). -/
def getStats {σ : Type} (msg : String) (collection : Collection) : Go σ Unit := func do
  let stats : Option Doc := none
  let start ← timeNow
  let (stats, err) ← collection.Database.Run [("getLastRequestStatistics", Value.int 1)] stats
  let elapsed ← timeSince start
  println msg
  printf ("Duration: " ++ (← sprintDuration elapsed))
  println ""
  printCharge stats
  println "-------------------------"
  match err with
  | some e =>
      logFatal ("Error getting diagnostics: " ++ e)
      ret
  | none => pure ()

/-- The document the program inserts (main.go 80-86 and 133-139). -/
def reactPackage : Package :=
  { FullName := "react"
    Description := "A framework for building native apps with React."
    ForksCount := 11392
    StarsCount := 48794
    LastUpdatedBy := "shergin" }

/-- The function `testConcurrent` (main.go 128-160); `database` is the package variable. -/
def testConcurrent {σ : Type} (database : String) (collection : Collection) (session : Session) :
    Go σ Unit := func do
  let session2 ← session.Copy
  let collection2 ← (session2.DB database).C "package"
  let err ← collection.Insert reactPackage
  match err with
  | some e =>
      logFatal ("Error testing: " ++ e)
      ret
  | none => pure ()
  let result : Package := {}
  let (_result, err) ← collection2.FindOne [("fullname", Value.str "react")] result
  match err with
  | some e =>
      logFatal ("Error finding record: " ++ e)
      ret
  | none => pure ()
  match err with
  | some e =>
      logFatal ("Error testing: " ++ e)
      ret
  | none => pure ()
  getStats "collection 1, insert" collection
  getStats "collection 2, find" collection2

/-- The statements of `testConcurrent` up to and with its find (main.go 129-147), with the
values of `collection2`, `result` and `err` after the find. -/
def testConcurrentFind {σ : Type} (database : String) (collection : Collection)
    (session : Session) : Go σ (Collection × Package × Option String) := do
  let session2 ← session.Copy
  let collection2 ← (session2.DB database).C "package"
  let err ← collection.Insert reactPackage
  match err with
  | some e =>
      logFatal ("Error testing: " ++ e)
      ret
  | none => pure ()
  let result : Package := {}
  let (result, err) ← collection2.FindOne [("fullname", Value.str "react")] result
  pure (collection2, result, err)

/-- The statements of `testConcurrent` after its find (main.go 148-159). -/
def testConcurrentRest {σ : Type} (collection collection2 : Collection) (err : Option String) :
    Go σ Unit := do
  match err with
  | some e =>
      logFatal ("Error finding record: " ++ e)
      ret
  | none => pure ()
  match err with
  | some e =>
      logFatal ("Error testing: " ++ e)
      ret
  | none => pure ()
  getStats "collection 1, insert" collection
  getStats "collection 2, find" collection2

/-- The dial configuration `main` builds (main.go 45-54). -/
def dialInfo (database password : String) : DialInfo :=
  { Addrs := [database ++ ".documents.azure.com:10255"]
    Timeout := 60 * Second
    Database := database
    Username := database
    Password := password
    DialServer := Dialer.tlsTcp }

/-- The function `main` (main.go 43-126); `database` and `password` are the package
variables set by `init`.  The statements after the `return` of line 77 are kept. -/
def main {σ : Type} (database password : String) : Go σ Unit := func do
  let (session, err) ← DialWithInfo (dialInfo database password)
  match err with
  | some e =>
      printf ("Can\x27t connect, go error " ++ e ++ "\n")
      osExit 1
  | none => pure ()
  defer (Deferred.close session.id)
  session.SetSafe (some {})
  let collection ← (session.DB database).C "package"
  testConcurrent database collection session
  ret
  let err ← collection.Insert reactPackage
  getStats "insert stats" collection
  match err with
  | some e =>
      logFatal ("Problem inserting data: " ++ e)
      ret
  | none => pure ()
  let result : Package := {}
  let (result, err) ← collection.FindOne [("fullname", Value.str "react")] result
  match err with
  | some e =>
      logFatal ("Error finding record: " ++ e)
      ret
  | none => pure ()
  getStats "find stats" collection
  println ("Description: " ++ result.Description)
  let updateQuery : Doc := [("_id", Value.oid result.Id)]
  let change : List (String × Doc) := [("$set", [("fullname", Value.str "react-native")])]
  let err ← collection.Update updateQuery change
  match err with
  | some e =>
      logFatal ("Error updating record: " ++ e)
      ret
  | none => pure ()
  getStats "update stats" collection
  let err ← collection.Remove updateQuery
  match err with
  | some e =>
      logFatal ("Error deleting record: " ++ e)
      ret
  | none => pure ()
  getStats "remove stats" collection

/-- The world a process starts in. -/
def World.init {σ : Type} (store : σ) (clock : Nat) : World σ :=
  { store := store, clock := clock, nextSession := 0, safety := fun _ => none,
    frames := [], trace := [] }

/-- The result of a process: its exit status and its trace. -/
structure Run (σ : Type) where
  status : Nat
  world : World σ

/-- One run of the program: `main` is called in the initial world; when it returns the
process ends with status 0, otherwise with the status given to `os.Exit`. -/
def runProgram {σ : Type} (env : Env σ) (database password : String) (store : σ) (clock : Nat) :
    Run σ :=
  match main database password env (World.init store clock) with
  | (Flow.exited c, w) => ⟨c, w⟩
  | (_, w) => ⟨0, w⟩

/-! ## Observations on a trace -/

/-- The insert of `testConcurrent`, for a collection named `package`. -/
def insertCmd : Request := Request.insert "package" reactPackage.toBSON

/-- The find of `testConcurrent`. -/
def findCmd : Request := Request.findOne "package" [("fullname", Value.str "react")]

/-- The command of `getStats`. -/
def statsCmd : Request := Request.run [("getLastRequestStatistics", Value.int 1)]

/-- The store commands of a trace, in order: session, database, request and reply. -/
def requests (t : List Event) : List (Nat × String × Request × Reply) :=
  t.filterMap fun e =>
    match e with
    | Event.request s db _ req reply => some (s, db, req, reply)
    | _ => none

/-- The store commands of a trace without their replies: session and request. -/
def commands (t : List Event) : List (Nat × Request) :=
  (requests t).map fun x => (x.1, x.2.2.1)

/-- The dial configurations a trace hands to the driver. -/
def dials (t : List Event) : List DialInfo :=
  t.filterMap fun e =>
    match e with
    | Event.dial info => some info
    | _ => none

/-- The sessions closed in a trace, in order. -/
def closes (t : List Event) : List Nat :=
  t.filterMap fun e =>
    match e with
    | Event.close s => some s
    | _ => none

/-- The collection handles obtained in a trace. -/
def handles (t : List Event) : List (Nat × String × String) :=
  t.filterMap fun e =>
    match e with
    | Event.collection s db name => some (s, db, name)
    | _ => none

/-- Everything a trace writes to standard output. -/
def stdoutText (t : List Event) : String :=
  String.join (t.filterMap fun e =>
    match e with
    | Event.stdout text => some text
    | _ => none)

/-- Whether a request changes the store. -/
def Request.isWrite : Request → Bool
  | Request.insert _ _ => true
  | Request.update _ _ _ => true
  | Request.remove _ _ => true
  | _ => false

/-- The four lines `getStats` prints for a reply, as the six writes that make them. -/
def statsPrints {σ : Type} (env : Env σ) (msg : String) (r : Reply) : List Event :=
  [Event.stdout (msg ++ "\n"),
   Event.stdout ("Duration: " ++ env.fmtDuration r.latency),
   Event.stdout "\n",
   Event.stdout ("Charge: " ++ env.fmtF (index r.doc "RequestCharge")),
   Event.stdout "\n",
   Event.stdout "-------------------------\n"]

/-- The world in which `main` calls `testConcurrent` when the dial succeeded. -/
def setupWorld {σ : Type} (env : Env σ) (a p : String) (store : σ) (clock : Nat) : World σ :=
  { store := store
    clock := clock
    nextSession := 1
    safety := fun s => if s = 0 then some {} else if s = 0 then env.dialSafe else none
    frames := [[Deferred.close 0]]
    trace := [Event.dial (dialInfo a p), Event.setSafe 0 (some {}),
              Event.collection 0 a "package"] }

/-- The reply of the store to the insert of a run, with the store after it. -/
def insertReply {σ : Type} (env : Env σ) (a : String) (store : σ) : Reply × σ :=
  env.exec store 0 a insertCmd

/-- The reply of the store to the find of a run, with the store after it. -/
def findReply {σ : Type} (env : Env σ) (a : String) (store : σ) : Reply × σ :=
  env.exec (insertReply env a store).2 1 a findCmd

/-- The reply of the store to the first statistics command of a run. -/
def statsReply1 {σ : Type} (env : Env σ) (a : String) (store : σ) : Reply × σ :=
  env.exec (findReply env a store).2 0 a statsCmd

/-- The reply of the store to the second statistics command of a run. -/
def statsReply2 {σ : Type} (env : Env σ) (a : String) (store : σ) : Reply × σ :=
  env.exec (statsReply1 env a store).2 1 a statsCmd

/-- The events of a run up to the first store command, when the dial succeeded. -/
def setupEvents (a p : String) : List Event :=
  [Event.dial (dialInfo a p), Event.setSafe 0 (some {}), Event.collection 0 a "package",
   Event.copy 0 1, Event.collection 1 a "package"]

/-- The safety mode recorded for a request of `testConcurrent` on session `x`: the copy has
the mode of the session it was copied from. -/
def copySafety {σ : Type} (w : World σ) (s : Session) (x : Nat) : Option Safe :=
  if x = w.nextSession then w.safety s.id else w.safety x

/-- The events of `testConcurrent` up to and with its insert. -/
def tcInsertEvents {σ : Type} (w : World σ) (database : String) (c : Collection) (s : Session)
    (r1 : Reply) : List Event :=
  [Event.copy s.id w.nextSession,
   Event.collection w.nextSession database "package",
   Event.request c.Database.Session.id c.Database.Name (copySafety w s c.Database.Session.id)
     (Request.insert c.Name reactPackage.toBSON) r1]

/-- The messages a trace hands to `log.Fatal`. -/
def fatals (t : List Event) : List String :=
  t.filterMap fun e =>
    match e with
    | Event.fatal text => some text
    | _ => none

/-- Whether a request is an update. -/
def Request.isUpdate : Request → Bool
  | Request.update _ _ _ => true
  | _ => false

/-- Whether a request is a delete. -/
def Request.isRemove : Request → Bool
  | Request.remove _ _ => true
  | _ => false

/-- The answer of the store to the command of `getStats` issued in world `w` on handle `c`. -/
def statsAnswer {σ : Type} (env : Env σ) (w : World σ) (c : Collection) : Reply :=
  (env.exec w.store c.Database.Session.id c.Database.Name statsCmd).1

/-! ## Store models -/

/-- Modelled from the spec: the store is not part of the repository.  This is a store that
keeps one last-request record per logical session, over any data store `σ`. -/
structure Tracked (σ : Type) where
  inner : σ
  last : Nat → Option Request

/-- Modelled from the spec: every request of a session overwrites the record of that session,
and the statistics command answers with a report of the record it finds, that is, of the
request that came before it on the same session.  All other requests are answered by the
data store underneath. -/
def trackedExec {σ : Type} (exec : σ → Nat → String → Request → Reply × σ)
    (report : Option Request → Doc) (st : Tracked σ) (s : Nat) (db : String) (req : Request) :
    Reply × Tracked σ :=
  let r := exec st.inner s db req
  let last := fun x => if x = s then some req else st.last x
  if req = statsCmd then
    ({ err := none, doc := some (report (st.last s)), latency := r.1.latency }, ⟨r.2, last⟩)
  else
    (r.1, ⟨r.2, last⟩)

/-- An environment whose store tracks the last request of every session. -/
def trackedEnv {σ : Type} (env : Env σ) (report : Option Request → Doc) : Env (Tracked σ) :=
  { dialErr := env.dialErr
    dialSafe := env.dialSafe
    exec := trackedExec env.exec report
    fmtDuration := env.fmtDuration
    fmtF := env.fmtF
    floatToInt := env.floatToInt }

/-- The name under which the store reports a request. -/
def commandName : Request → String
  | Request.insert _ _ => "insert"
  | Request.findOne _ _ => "find"
  | Request.update _ _ _ => "update"
  | Request.remove _ _ => "delete"
  | Request.run cmd => (cmd.head?.map Prod.fst).getD ""

/-- A report of a last-request record with the fields `Ok` and `CommandName` of the struct
`RequestStats` (main.go 36-41). -/
def statsDoc : Option Request → Doc
  | none => [("Ok", Value.int 0)]
  | some r => [("Ok", Value.int 1), ("CommandName", Value.str (commandName r))]

/-- Modelled from the spec: the store is not part of the repository.  This is a document
store: the documents of every collection of every database, in insertion order, and the
number of identifiers handed out so far. -/
structure DocStore where
  docs : String → String → List Doc
  serial : Nat

/-- Whether a document satisfies an equality filter. -/
def matchesFilter (filter d : Doc) : Bool :=
  filter.all fun kv => d.lookup kv.1 == some kv.2

/-- A document with one field set. -/
def setField (d : Doc) (k : String) (v : Value) : Doc :=
  if (d.lookup k).isSome then d.map (fun kv => if kv.1 == k then (k, v) else kv)
  else d ++ [(k, v)]

/-- A document after the `$set` operator of an update document. -/
def applyChange (change : List (String × Doc)) (d : Doc) : Doc :=
  match change.lookup "$set" with
  | some fields => fields.foldl (fun acc kv => setField acc kv.1 kv.2) d
  | none => d

/-- A list of documents with the first one that satisfies `p` replaced. -/
def updateFirst (p : Doc → Bool) (f : Doc → Doc) : List Doc → List Doc
  | [] => []
  | d :: ds => if p d then f d :: ds else d :: updateFirst p f ds

/-- Modelled from the spec: insert stores the document as marshalled, with a fresh `_id`
from `newId` when it has none; find-one returns the first stored document that satisfies the
equality filter, or the error `not found`; update and delete act on the first match. -/
def docExec (newId : Nat → String) (st : DocStore) (_session : Nat) (db : String)
    (req : Request) : Reply × DocStore :=
  match req with
  | Request.insert coll doc =>
      let stored :=
        if (doc.lookup "_id").isSome then doc else ("_id", Value.oid (newId st.serial)) :: doc
      (⟨none, none, 0⟩,
        { docs := fun d c => if d = db ∧ c = coll then st.docs d c ++ [stored] else st.docs d c
          serial := st.serial + 1 })
  | Request.findOne coll filter =>
      match (st.docs db coll).find? (matchesFilter filter) with
      | some d => (⟨none, some d, 0⟩, st)
      | none => (⟨some "not found", none, 0⟩, st)
  | Request.update coll selector change =>
      match (st.docs db coll).find? (matchesFilter selector) with
      | some _ =>
          (⟨none, none, 0⟩,
            { st with
              docs := fun d c =>
                if d = db ∧ c = coll then
                  updateFirst (matchesFilter selector) (applyChange change) (st.docs d c)
                else st.docs d c })
      | none => (⟨some "not found", none, 0⟩, st)
  | Request.remove coll selector =>
      match (st.docs db coll).find? (matchesFilter selector) with
      | some _ =>
          (⟨none, none, 0⟩,
            { st with
              docs := fun d c =>
                if d = db ∧ c = coll then (st.docs d c).eraseP (matchesFilter selector)
                else st.docs d c })
      | none => (⟨some "not found", none, 0⟩, st)
  | Request.run _ => (⟨none, none, 0⟩, st)

/-! ## Sample environments -/

/-- An environment in which the dial and every request succeed. -/
def okEnv : Env Unit :=
  { dialErr := fun _ => none
    dialSafe := none
    exec := fun _ _ _ _ => (⟨none, none, 5⟩, ())
    fmtDuration := fun _ => "5ns"
    fmtF := fun _ => "%!f(<nil>)"
    floatToInt := fun _ => 0 }

/-- An environment in which the dial succeeds and every insert fails with `EOF`. -/
def insertFailsEnv : Env Unit :=
  { okEnv with
    exec := fun _ _ _ req =>
      match req with
      | Request.insert _ _ => (⟨some "EOF", none, 5⟩, ())
      | _ => (⟨none, none, 5⟩, ()) }

/-- An environment in which the dial fails. -/
def noRouteEnv : Env Unit :=
  { okEnv with dialErr := fun _ => some "no reachable servers" }

/-- An identifier generator that hands out one twelve-byte identifier. -/
def sampleId : Nat → String := fun _ => "5f0c1a2b3c4d"

/-- An environment over the document store. -/
def docEnv : Env DocStore :=
  { dialErr := fun _ => none
    dialSafe := none
    exec := docExec sampleId
    fmtDuration := fun _ => "0s"
    fmtF := fun _ => "%!f(<nil>)"
    floatToInt := fun _ => 0 }

/-- The collection handle `main` passes to `testConcurrent` for the account `acct`. -/
def acctCollection : Collection := ⟨⟨⟨0⟩, "acct"⟩, "package"⟩

/-! ## How the functions run -/

theorem str_nl : "" ++ "\n" = "\n" := by decide

theorem str_sep : "-------------------------" ++ "\n" = "-------------------------\n" := by decide

/-- What one call of `getStats` does, in full. -/
theorem getStats_eq {σ : Type} (msg : String) (c : Collection) (env : Env σ) (w : World σ) :
    getStats msg c env w =
      (match (env.exec w.store c.Database.Session.id c.Database.Name statsCmd).1.err with
        | some _ => Flow.exited 1
        | none => Flow.next (),
       { w with
         store := (env.exec w.store c.Database.Session.id c.Database.Name statsCmd).2
         clock := w.clock + (env.exec w.store c.Database.Session.id c.Database.Name statsCmd).1.latency
         frames :=
           match (env.exec w.store c.Database.Session.id c.Database.Name statsCmd).1.err with
           | some _ => [] :: w.frames
           | none => w.frames
         trace := w.trace ++
           Event.request c.Database.Session.id c.Database.Name (w.safety c.Database.Session.id)
              statsCmd (env.exec w.store c.Database.Session.id c.Database.Name statsCmd).1 ::
           statsPrints env msg (env.exec w.store c.Database.Session.id c.Database.Name statsCmd).1 ++
           (match (env.exec w.store c.Database.Session.id c.Database.Name statsCmd).1.err with
            | some e => [Event.fatal ("Error getting diagnostics: " ++ e), Event.exit 1]
            | none => []) }) := by
  simp only [getStats, func, printCharge, Database.Run, send, timeNow, timeSince, println, printf,
    emit, sprintDuration, sprintF, logFatal, ret, bind, Go.bind, pure, Go.pure, statsCmd,
    statsPrints]
  rcases env.exec w.store c.Database.Session.id c.Database.Name
      (Request.run [("getLastRequestStatistics", Value.int 1)]) with ⟨⟨err, doc, lat⟩, st⟩
  cases err <;> cases doc <;>
    simp [Go.pure, Go.bind, logFatal, runDeferred, str_nl, str_sep, index, World.pending]

theorem testConcurrent_insert_fails {σ : Type} (env : Env σ) (database : String) (c : Collection)
    (s : Session) (w : World σ) (r1 : Reply × σ) (e : String)
    (e1 : env.exec w.store c.Database.Session.id c.Database.Name
      (Request.insert c.Name reactPackage.toBSON) = r1)
    (h1 : r1.1.err = some e) :
    ∃ w1, testConcurrent database c s env w = (Flow.exited 1, w1) ∧
      w1.trace = w.trace ++ tcInsertEvents w database c s r1.1 ++
        [Event.fatal ("Error testing: " ++ e), Event.exit 1] := by
  simp [testConcurrent, func, Session.Copy, Session.DB, Database.C, Collection.Insert, send, bind,
    Go.bind, pure, Go.pure, e1, h1, logFatal, tcInsertEvents, copySafety]

theorem testConcurrent_find_fails {σ : Type} (env : Env σ) (database : String) (c : Collection)
    (s : Session) (w : World σ) (r1 r2 : Reply × σ) (e : String)
    (e1 : env.exec w.store c.Database.Session.id c.Database.Name
      (Request.insert c.Name reactPackage.toBSON) = r1)
    (e2 : env.exec r1.2 w.nextSession database findCmd = r2)
    (h1 : r1.1.err = none) (h2 : r2.1.err = some e) :
    ∃ w1, testConcurrent database c s env w = (Flow.exited 1, w1) ∧
      w1.trace = w.trace ++ tcInsertEvents w database c s r1.1 ++
        [Event.request w.nextSession database (w.safety s.id) findCmd r2.1,
         Event.fatal ("Error finding record: " ++ e), Event.exit 1] := by
  simp only [findCmd] at e2
  simp [testConcurrent, func, Session.Copy, Session.DB, Database.C, Collection.Insert,
    Collection.FindOne, floatConv, send, bind, Go.bind, pure, Go.pure, e1, e2, h1, h2, logFatal,
    tcInsertEvents, copySafety, findCmd]

theorem testConcurrent_stats1_fails {σ : Type} (env : Env σ) (database : String) (c : Collection)
    (s : Session) (w : World σ) (r1 r2 r3 : Reply × σ) (e : String)
    (e1 : env.exec w.store c.Database.Session.id c.Database.Name
      (Request.insert c.Name reactPackage.toBSON) = r1)
    (e2 : env.exec r1.2 w.nextSession database findCmd = r2)
    (e3 : env.exec r2.2 c.Database.Session.id c.Database.Name statsCmd = r3)
    (h1 : r1.1.err = none) (h2 : r2.1.err = none) (h3 : r3.1.err = some e) :
    ∃ w1, testConcurrent database c s env w = (Flow.exited 1, w1) ∧
      w1.trace = w.trace ++ tcInsertEvents w database c s r1.1 ++
        [Event.request w.nextSession database (w.safety s.id) findCmd r2.1,
         Event.request c.Database.Session.id c.Database.Name
           (copySafety w s c.Database.Session.id) statsCmd r3.1] ++
        statsPrints env "collection 1, insert" r3.1 ++
        [Event.fatal ("Error getting diagnostics: " ++ e), Event.exit 1] := by
  obtain ⟨⟨err2, doc2, lat2⟩, st2⟩ := r2
  simp only at h2 e3
  subst h2
  simp only [findCmd] at e2
  cases doc2 <;>
  simp [testConcurrent, func, getStats_eq, Session.Copy, Session.DB, Database.C,
    Collection.Insert, Collection.FindOne, floatConv, send, bind, Go.bind, pure, Go.pure, e1, e2, e3, h1, h3,
    tcInsertEvents, copySafety, findCmd]

theorem testConcurrent_stats2_fails {σ : Type} (env : Env σ) (database : String) (c : Collection)
    (s : Session) (w : World σ) (r1 r2 r3 r4 : Reply × σ) (e : String)
    (e1 : env.exec w.store c.Database.Session.id c.Database.Name
      (Request.insert c.Name reactPackage.toBSON) = r1)
    (e2 : env.exec r1.2 w.nextSession database findCmd = r2)
    (e3 : env.exec r2.2 c.Database.Session.id c.Database.Name statsCmd = r3)
    (e4 : env.exec r3.2 w.nextSession database statsCmd = r4)
    (h1 : r1.1.err = none) (h2 : r2.1.err = none) (h3 : r3.1.err = none)
    (h4 : r4.1.err = some e) :
    ∃ w1, testConcurrent database c s env w = (Flow.exited 1, w1) ∧
      w1.trace = w.trace ++ tcInsertEvents w database c s r1.1 ++
        [Event.request w.nextSession database (w.safety s.id) findCmd r2.1,
         Event.request c.Database.Session.id c.Database.Name
           (copySafety w s c.Database.Session.id) statsCmd r3.1] ++
        statsPrints env "collection 1, insert" r3.1 ++
        [Event.request w.nextSession database (w.safety s.id) statsCmd r4.1] ++
        statsPrints env "collection 2, find" r4.1 ++
        [Event.fatal ("Error getting diagnostics: " ++ e), Event.exit 1] := by
  obtain ⟨⟨err2, doc2, lat2⟩, st2⟩ := r2
  simp only at h2 e3
  subst h2
  simp only [findCmd] at e2
  cases doc2 <;>
  simp [testConcurrent, func, getStats_eq, Session.Copy, Session.DB, Database.C,
    Collection.Insert, Collection.FindOne, floatConv, send, bind, Go.bind, pure, Go.pure, e1, e2, e3, e4, h1,
    h3, h4, tcInsertEvents, copySafety, findCmd]

theorem testConcurrent_ok {σ : Type} (env : Env σ) (database : String) (c : Collection)
    (s : Session) (w : World σ) (r1 r2 r3 r4 : Reply × σ)
    (e1 : env.exec w.store c.Database.Session.id c.Database.Name
      (Request.insert c.Name reactPackage.toBSON) = r1)
    (e2 : env.exec r1.2 w.nextSession database findCmd = r2)
    (e3 : env.exec r2.2 c.Database.Session.id c.Database.Name statsCmd = r3)
    (e4 : env.exec r3.2 w.nextSession database statsCmd = r4)
    (h1 : r1.1.err = none) (h2 : r2.1.err = none) (h3 : r3.1.err = none)
    (h4 : r4.1.err = none) :
    ∃ w1, testConcurrent database c s env w = (Flow.next (), w1) ∧ w1.frames = w.frames ∧
      w1.trace = w.trace ++ tcInsertEvents w database c s r1.1 ++
        [Event.request w.nextSession database (w.safety s.id) findCmd r2.1,
         Event.request c.Database.Session.id c.Database.Name
           (copySafety w s c.Database.Session.id) statsCmd r3.1] ++
        statsPrints env "collection 1, insert" r3.1 ++
        [Event.request w.nextSession database (w.safety s.id) statsCmd r4.1] ++
        statsPrints env "collection 2, find" r4.1 := by
  obtain ⟨⟨err2, doc2, lat2⟩, st2⟩ := r2
  simp only at h2 e3
  subst h2
  simp only [findCmd] at e2
  cases doc2 <;>
  simp [testConcurrent, func, getStats_eq, Session.Copy, Session.DB, Database.C,
    Collection.Insert, Collection.FindOne, floatConv, send, bind, Go.bind, pure, Go.pure, e1, e2, e3, e4, h1,
    h3, h4, World.pending, tcInsertEvents, copySafety, findCmd]

/-- When the dial succeeds, `main` is `testConcurrent` in the world `setupWorld`, followed by
the `return` of line 77 and the deferred calls of `main`. -/
theorem main_eq {σ : Type} (env : Env σ) (a p : String) (store : σ) (clock : Nat)
    (hd : env.dialErr (dialInfo a p) = none) :
    main a p env (World.init store clock) =
      match testConcurrent a ⟨⟨⟨0⟩, a⟩, "package"⟩ ⟨0⟩ env (setupWorld env a p store clock) with
      | (Flow.exited code, w1) => (Flow.exited code, w1)
      | (_, w1) =>
          (Flow.next (),
            { (w1.pending.foldl (fun acc d => runDeferred d acc) w1) with
              frames := w1.frames.tail }) := by
  simp only [main, func, DialWithInfo, Session.SetSafe, Session.DB, Database.C, defer, World.init,
    World.pending, ret, bind, Go.bind, pure, Go.pure, hd, setupWorld, List.headD, List.tail,
    List.nil_append, List.cons_append, Nat.zero_add]
  rcases testConcurrent a ⟨⟨⟨0⟩, a⟩, "package"⟩ ⟨0⟩ env _ with ⟨fl, w1⟩
  cases fl <;> rfl

theorem run_dial_fails {σ : Type} (env : Env σ) (a p : String) (store : σ) (clock : Nat)
    (e : String) (hd : env.dialErr (dialInfo a p) = some e) :
    (runProgram env a p store clock).status = 1 ∧
    (runProgram env a p store clock).world.trace =
      [Event.dial (dialInfo a p), Event.stdout ("Can\x27t connect, go error " ++ e ++ "\n"),
       Event.exit 1] := by
  simp [runProgram, main, func, DialWithInfo, World.init, osExit, printf, emit, bind, Go.bind, pure,
    Go.pure, hd]

theorem run_insert_fails {σ : Type} (env : Env σ) (a p : String) (store : σ) (clock : Nat)
    (e : String) (hd : env.dialErr (dialInfo a p) = none)
    (h1 : (insertReply env a store).1.err = some e) :
    (runProgram env a p store clock).status = 1 ∧
    (runProgram env a p store clock).world.trace =
      setupEvents a p ++
      [Event.request 0 a (some {}) insertCmd (insertReply env a store).1,
       Event.fatal ("Error testing: " ++ e), Event.exit 1] := by
  obtain ⟨w1, htc, htr⟩ := testConcurrent_insert_fails env a ⟨⟨⟨0⟩, a⟩, "package"⟩ ⟨0⟩
    (setupWorld env a p store clock) (insertReply env a store) e rfl h1
  have hm := main_eq env a p store clock hd
  rw [htc] at hm
  simp only [runProgram, hm]
  simp [htr, setupWorld, tcInsertEvents, copySafety, setupEvents, insertCmd]

theorem run_find_fails {σ : Type} (env : Env σ) (a p : String) (store : σ) (clock : Nat)
    (e : String) (hd : env.dialErr (dialInfo a p) = none)
    (h1 : (insertReply env a store).1.err = none)
    (h2 : (findReply env a store).1.err = some e) :
    (runProgram env a p store clock).status = 1 ∧
    (runProgram env a p store clock).world.trace =
      setupEvents a p ++
      [Event.request 0 a (some {}) insertCmd (insertReply env a store).1,
       Event.request 1 a (some {}) findCmd (findReply env a store).1,
       Event.fatal ("Error finding record: " ++ e), Event.exit 1] := by
  obtain ⟨w1, htc, htr⟩ := testConcurrent_find_fails env a ⟨⟨⟨0⟩, a⟩, "package"⟩ ⟨0⟩
    (setupWorld env a p store clock) (insertReply env a store) (findReply env a store) e rfl rfl
    h1 h2
  have hm := main_eq env a p store clock hd
  rw [htc] at hm
  simp only [runProgram, hm]
  simp [htr, setupWorld, tcInsertEvents, copySafety, setupEvents, insertCmd]

theorem run_stats1_fails {σ : Type} (env : Env σ) (a p : String) (store : σ) (clock : Nat)
    (e : String) (hd : env.dialErr (dialInfo a p) = none)
    (h1 : (insertReply env a store).1.err = none)
    (h2 : (findReply env a store).1.err = none)
    (h3 : (statsReply1 env a store).1.err = some e) :
    (runProgram env a p store clock).status = 1 ∧
    (runProgram env a p store clock).world.trace =
      setupEvents a p ++
      [Event.request 0 a (some {}) insertCmd (insertReply env a store).1,
       Event.request 1 a (some {}) findCmd (findReply env a store).1,
       Event.request 0 a (some {}) statsCmd (statsReply1 env a store).1] ++
      statsPrints env "collection 1, insert" (statsReply1 env a store).1 ++
      [Event.fatal ("Error getting diagnostics: " ++ e), Event.exit 1] := by
  obtain ⟨w1, htc, htr⟩ := testConcurrent_stats1_fails env a ⟨⟨⟨0⟩, a⟩, "package"⟩ ⟨0⟩
    (setupWorld env a p store clock) (insertReply env a store) (findReply env a store)
    (statsReply1 env a store) e rfl rfl rfl h1 h2 h3
  have hm := main_eq env a p store clock hd
  rw [htc] at hm
  simp only [runProgram, hm]
  simp [htr, setupWorld, tcInsertEvents, copySafety, setupEvents, insertCmd]

theorem run_stats2_fails {σ : Type} (env : Env σ) (a p : String) (store : σ) (clock : Nat)
    (e : String) (hd : env.dialErr (dialInfo a p) = none)
    (h1 : (insertReply env a store).1.err = none)
    (h2 : (findReply env a store).1.err = none)
    (h3 : (statsReply1 env a store).1.err = none)
    (h4 : (statsReply2 env a store).1.err = some e) :
    (runProgram env a p store clock).status = 1 ∧
    (runProgram env a p store clock).world.trace =
      setupEvents a p ++
      [Event.request 0 a (some {}) insertCmd (insertReply env a store).1,
       Event.request 1 a (some {}) findCmd (findReply env a store).1,
       Event.request 0 a (some {}) statsCmd (statsReply1 env a store).1] ++
      statsPrints env "collection 1, insert" (statsReply1 env a store).1 ++
      [Event.request 1 a (some {}) statsCmd (statsReply2 env a store).1] ++
      statsPrints env "collection 2, find" (statsReply2 env a store).1 ++
      [Event.fatal ("Error getting diagnostics: " ++ e), Event.exit 1] := by
  obtain ⟨w1, htc, htr⟩ := testConcurrent_stats2_fails env a ⟨⟨⟨0⟩, a⟩, "package"⟩ ⟨0⟩
    (setupWorld env a p store clock) (insertReply env a store) (findReply env a store)
    (statsReply1 env a store) (statsReply2 env a store) e rfl rfl rfl rfl h1 h2 h3 h4
  have hm := main_eq env a p store clock hd
  rw [htc] at hm
  simp only [runProgram, hm]
  simp [htr, setupWorld, tcInsertEvents, copySafety, setupEvents, insertCmd]

theorem run_all_ok {σ : Type} (env : Env σ) (a p : String) (store : σ) (clock : Nat)
    (hd : env.dialErr (dialInfo a p) = none)
    (h1 : (insertReply env a store).1.err = none)
    (h2 : (findReply env a store).1.err = none)
    (h3 : (statsReply1 env a store).1.err = none)
    (h4 : (statsReply2 env a store).1.err = none) :
    (runProgram env a p store clock).status = 0 ∧
    (runProgram env a p store clock).world.trace =
      setupEvents a p ++
      [Event.request 0 a (some {}) insertCmd (insertReply env a store).1,
       Event.request 1 a (some {}) findCmd (findReply env a store).1,
       Event.request 0 a (some {}) statsCmd (statsReply1 env a store).1] ++
      statsPrints env "collection 1, insert" (statsReply1 env a store).1 ++
      [Event.request 1 a (some {}) statsCmd (statsReply2 env a store).1] ++
      statsPrints env "collection 2, find" (statsReply2 env a store).1 ++
      [Event.close 0] := by
  obtain ⟨w1, htc, hfr, htr⟩ := testConcurrent_ok env a ⟨⟨⟨0⟩, a⟩, "package"⟩ ⟨0⟩
    (setupWorld env a p store clock) (insertReply env a store) (findReply env a store)
    (statsReply1 env a store) (statsReply2 env a store) rfl rfl rfl rfl h1 h2 h3 h4
  have hm := main_eq env a p store clock hd
  rw [htc] at hm
  simp only [runProgram, hm]
  simp [htr, hfr, setupWorld, tcInsertEvents, copySafety, setupEvents, insertCmd, World.pending,
    runDeferred]

/-- Every run ends in one of six ways. -/
theorem run_cases {σ : Type} (env : Env σ) (a p : String) (store : σ) (clock : Nat) :
    (∃ e, env.dialErr (dialInfo a p) = some e ∧
      (runProgram env a p store clock).status = 1 ∧
      (runProgram env a p store clock).world.trace =
        [Event.dial (dialInfo a p), Event.stdout ("Can\x27t connect, go error " ++ e ++ "\n"),
         Event.exit 1]) ∨
    (∃ e, env.dialErr (dialInfo a p) = none ∧ (insertReply env a store).1.err = some e ∧
      (runProgram env a p store clock).status = 1 ∧
      (runProgram env a p store clock).world.trace =
        setupEvents a p ++
        [Event.request 0 a (some {}) insertCmd (insertReply env a store).1,
         Event.fatal ("Error testing: " ++ e), Event.exit 1]) ∨
    (∃ e, env.dialErr (dialInfo a p) = none ∧ (insertReply env a store).1.err = none ∧
      (findReply env a store).1.err = some e ∧
      (runProgram env a p store clock).status = 1 ∧
      (runProgram env a p store clock).world.trace =
        setupEvents a p ++
        [Event.request 0 a (some {}) insertCmd (insertReply env a store).1,
         Event.request 1 a (some {}) findCmd (findReply env a store).1,
         Event.fatal ("Error finding record: " ++ e), Event.exit 1]) ∨
    (∃ e, env.dialErr (dialInfo a p) = none ∧ (insertReply env a store).1.err = none ∧
      (findReply env a store).1.err = none ∧ (statsReply1 env a store).1.err = some e ∧
      (runProgram env a p store clock).status = 1 ∧
      (runProgram env a p store clock).world.trace =
        setupEvents a p ++
        [Event.request 0 a (some {}) insertCmd (insertReply env a store).1,
         Event.request 1 a (some {}) findCmd (findReply env a store).1,
         Event.request 0 a (some {}) statsCmd (statsReply1 env a store).1] ++
        statsPrints env "collection 1, insert" (statsReply1 env a store).1 ++
        [Event.fatal ("Error getting diagnostics: " ++ e), Event.exit 1]) ∨
    (∃ e, env.dialErr (dialInfo a p) = none ∧ (insertReply env a store).1.err = none ∧
      (findReply env a store).1.err = none ∧ (statsReply1 env a store).1.err = none ∧
      (statsReply2 env a store).1.err = some e ∧
      (runProgram env a p store clock).status = 1 ∧
      (runProgram env a p store clock).world.trace =
        setupEvents a p ++
        [Event.request 0 a (some {}) insertCmd (insertReply env a store).1,
         Event.request 1 a (some {}) findCmd (findReply env a store).1,
         Event.request 0 a (some {}) statsCmd (statsReply1 env a store).1] ++
        statsPrints env "collection 1, insert" (statsReply1 env a store).1 ++
        [Event.request 1 a (some {}) statsCmd (statsReply2 env a store).1] ++
        statsPrints env "collection 2, find" (statsReply2 env a store).1 ++
        [Event.fatal ("Error getting diagnostics: " ++ e), Event.exit 1]) ∨
    (env.dialErr (dialInfo a p) = none ∧ (insertReply env a store).1.err = none ∧
      (findReply env a store).1.err = none ∧ (statsReply1 env a store).1.err = none ∧
      (statsReply2 env a store).1.err = none ∧
      (runProgram env a p store clock).status = 0 ∧
      (runProgram env a p store clock).world.trace =
        setupEvents a p ++
        [Event.request 0 a (some {}) insertCmd (insertReply env a store).1,
         Event.request 1 a (some {}) findCmd (findReply env a store).1,
         Event.request 0 a (some {}) statsCmd (statsReply1 env a store).1] ++
        statsPrints env "collection 1, insert" (statsReply1 env a store).1 ++
        [Event.request 1 a (some {}) statsCmd (statsReply2 env a store).1] ++
        statsPrints env "collection 2, find" (statsReply2 env a store).1 ++
        [Event.close 0]) := by
  rcases hd : env.dialErr (dialInfo a p) with _ | e
  · rcases h1 : (insertReply env a store).1.err with _ | e
    · rcases h2 : (findReply env a store).1.err with _ | e
      · rcases h3 : (statsReply1 env a store).1.err with _ | e
        · rcases h4 : (statsReply2 env a store).1.err with _ | e
          · exact Or.inr (Or.inr (Or.inr (Or.inr (Or.inr
              ⟨rfl, rfl, rfl, rfl, rfl, run_all_ok env a p store clock hd h1 h2 h3 h4⟩))))
          · exact Or.inr (Or.inr (Or.inr (Or.inr (Or.inl
              ⟨e, rfl, rfl, rfl, rfl, rfl, run_stats2_fails env a p store clock e hd h1 h2 h3 h4⟩))))
        · exact Or.inr (Or.inr (Or.inr (Or.inl
            ⟨e, rfl, rfl, rfl, rfl, run_stats1_fails env a p store clock e hd h1 h2 h3⟩)))
      · exact Or.inr (Or.inr (Or.inl ⟨e, rfl, rfl, rfl, run_find_fails env a p store clock e hd h1 h2⟩))
    · exact Or.inr (Or.inl ⟨e, rfl, rfl, run_insert_fails env a p store clock e hd h1⟩)
  · exact Or.inl ⟨e, rfl, run_dial_fails env a p store clock e hd⟩

/-- An event of a list that does not occur in an initial part of it lies behind that part. -/
theorem subset_of_split {α : Type} (l1 l2 pre post : List α) (e : α)
    (h : l1 ++ l2 = pre ++ e :: post) (hn : e ∉ l1) : ∀ x ∈ l1, x ∈ pre := by
  rcases List.append_eq_append_iff.1 h with ⟨a1, ha, _⟩ | ⟨c1, hc, hb⟩
  · intro x hx
    simp [ha, hx]
  · rcases c1 with _ | ⟨y, c2⟩
    · intro x hx
      simpa [hc] using hx
    · simp only [List.cons_append, List.cons.injEq] at hb
      exact absurd (by simp [hc, hb.1]) hn

/-- A search finds the document appended last when no earlier one satisfies the test. -/
theorem find_after_append (l : List Doc) (d : Doc) (p : Doc → Bool)
    (hl : ∀ x ∈ l, p x = false) (hd : p d = true) : (l ++ [d]).find? p = some d := by
  induction l with
  | nil => simp [hd]
  | cons x xs ih =>
      have hx : p x = false := hl x (by simp)
      have ih1 := ih (fun y hy => hl y (by simp [hy]))
      rw [List.cons_append, List.find?_cons, hx]
      exact ih1

/-- The run of `testConcurrent` is its statements up to the find, then the rest. -/
theorem testConcurrent_split {σ : Type} (database : String) (c : Collection) (s : Session)
    (env : Env σ) (w : World σ) :
    testConcurrent database c s env w =
      func (Go.bind (testConcurrentFind database c s)
        (fun r => testConcurrentRest c r.1 r.2.2)) env w := by
  simp only [testConcurrent, testConcurrentFind, testConcurrentRest, func, Session.Copy,
    Session.DB, Database.C, Collection.Insert, Collection.FindOne, floatConv, send, bind,
    Go.bind, pure, Go.pure]
  rcases env.exec w.store c.Database.Session.id c.Database.Name
    (Request.insert c.Name reactPackage.toBSON) with ⟨⟨err1, doc1, lat1⟩, st1⟩
  cases err1
  · simp only [Go.pure, Go.bind, send, floatConv]
    rcases env.exec st1 w.nextSession database
      (Request.findOne "package" [("fullname", Value.str "react")]) with
      ⟨⟨err2, doc2, lat2⟩, st2⟩
    cases err2 <;> cases doc2 <;> simp [Go.pure, Go.bind, logFatal]
  · simp [Go.bind, logFatal]

/-! ## The claims -/

/-- C1: for every account name and credential, the dial configuration `main` builds has exactly
one address, the account name followed by `.documents.azure.com:10255`, a timeout of exactly
60 seconds (60 times `time.Second`, in nanoseconds, within the range of `int64`), the account
name as database and as username and the credential as password; and every run hands exactly
this configuration to the driver, once. -/
theorem C1_dial_configuration (a p : String) :
    (dialInfo a p).Addrs = [a ++ ".documents.azure.com:10255"] ∧
    (dialInfo a p).Timeout = 60 * Second ∧ Second = 1000000000 ∧
    (dialInfo a p).Timeout < 2 ^ 63 ∧
    (dialInfo a p).Database = a ∧ (dialInfo a p).Username = a ∧ (dialInfo a p).Password = p ∧
    ∀ (σ : Type) (env : Env σ) (store : σ) (clock : Nat),
      dials (runProgram env a p store clock).world.trace = [dialInfo a p] := by
  refine ⟨rfl, rfl, rfl, (by decide : 60 * Second < 2 ^ 63), rfl, rfl, rfl, ?_⟩
  intro σ env store clock
  rcases run_cases env a p store clock with ⟨e, _, _, ht⟩ | ⟨e, _, _, _, ht⟩ |
    ⟨e, _, _, _, _, ht⟩ | ⟨e, _, _, _, _, _, ht⟩ | ⟨e, _, _, _, _, _, _, ht⟩ |
    ⟨_, _, _, _, _, _, ht⟩ <;>
  simp [ht, dials, setupEvents, statsPrints]

/-- C2: when establishing the connection fails with error `e`, the run consists of the dial,
the line `Can't connect, go error e` on standard output and `os.Exit(1)`: the status is 1, no
store command is issued and no collection handle is obtained. -/
theorem C2_connect_failure {σ : Type} (env : Env σ) (a p : String) (store : σ) (clock : Nat)
    (e : String) (hd : env.dialErr (dialInfo a p) = some e) :
    (runProgram env a p store clock).world.trace =
      [Event.dial (dialInfo a p), Event.stdout ("Can\x27t connect, go error " ++ e ++ "\n"),
       Event.exit 1] ∧
    stdoutText (runProgram env a p store clock).world.trace =
      "Can\x27t connect, go error " ++ e ++ "\n" ∧
    (runProgram env a p store clock).status = 1 ∧
    requests (runProgram env a p store clock).world.trace = [] ∧
    handles (runProgram env a p store clock).world.trace = [] := by
  obtain ⟨hs, ht⟩ := run_dial_fails env a p store clock e hd
  simp [hs, ht, stdoutText, requests, handles, String.join]

/-- Witness of C2: a run in which the dial fails with `no reachable servers`. -/
theorem C2_connect_failure_witness :
    noRouteEnv.dialErr (dialInfo "acct" "key") = some "no reachable servers" ∧
    (runProgram noRouteEnv "acct" "key" () 0).status = 1 ∧
    requests (runProgram noRouteEnv "acct" "key" () 0).world.trace = [] :=
  ⟨rfl, (C2_connect_failure noRouteEnv "acct" "key" () 0 "no reachable servers" rfl).2.2.1,
    (C2_connect_failure noRouteEnv "acct" "key" () 0 "no reachable servers" rfl).2.2.2.1⟩

/-- C3: over a store that keeps one last-request record per logical session and overwrites it
on every request of that session, in every run of `testConcurrent` in which the insert and the
find succeed, the store commands issued are, in order, the insert on the session of
`collection`, the find on the copied session, the statistics command on the first session,
answered with the report of the insert, and the statistics command on the copied session,
answered with the report of the find.  The handle passed in belongs to a session that exists
already, so that the copy is another session. -/
theorem C3_statistics_per_session {σ : Type} (env : Env σ) (report : Option Request → Doc)
    (database : String) (c : Collection) (s : Session) (w : World (Tracked σ))
    (hc : c.Database.Session.id < w.nextSession)
    (h1 : (env.exec w.store.inner c.Database.Session.id c.Database.Name
      (Request.insert c.Name reactPackage.toBSON)).1.err = none)
    (h2 : (env.exec (env.exec w.store.inner c.Database.Session.id c.Database.Name
      (Request.insert c.Name reactPackage.toBSON)).2 w.nextSession database findCmd).1.err =
        none) :
    c.Database.Session.id ≠ w.nextSession ∧
    ∃ r1 r2 t3 t4,
      requests (testConcurrent database c s (trackedEnv env report) w).2.trace =
        requests w.trace ++
        [(c.Database.Session.id, c.Database.Name, Request.insert c.Name reactPackage.toBSON, r1),
         (w.nextSession, database, findCmd, r2),
         (c.Database.Session.id, c.Database.Name, statsCmd,
           ⟨none, some (report (some (Request.insert c.Name reactPackage.toBSON))), t3⟩),
         (w.nextSession, database, statsCmd, ⟨none, some (report (some findCmd)), t4⟩)] := by
  have hne : c.Database.Session.id ≠ w.nextSession := Nat.ne_of_lt hc
  have hne2 : w.nextSession ≠ c.Database.Session.id := fun h => hne h.symm
  obtain ⟨w1, htc, _, htr⟩ := testConcurrent_ok (trackedEnv env report) database c s w _ _ _ _
    rfl rfl rfl rfl
    (by simpa [trackedEnv, trackedExec, statsCmd] using h1)
    (by simpa [trackedEnv, trackedExec, statsCmd, findCmd] using h2)
    (by simp [trackedEnv, trackedExec])
    (by simp [trackedEnv, trackedExec])
  rw [htc]
  refine ⟨hne, (env.exec w.store.inner c.Database.Session.id c.Database.Name
      (Request.insert c.Name reactPackage.toBSON)).1,
    (env.exec (env.exec w.store.inner c.Database.Session.id c.Database.Name
      (Request.insert c.Name reactPackage.toBSON)).2 w.nextSession database findCmd).1,
    (env.exec (env.exec (env.exec w.store.inner c.Database.Session.id c.Database.Name
      (Request.insert c.Name reactPackage.toBSON)).2 w.nextSession database findCmd).2
      c.Database.Session.id c.Database.Name statsCmd).1.latency,
    (env.exec (env.exec (env.exec (env.exec w.store.inner c.Database.Session.id c.Database.Name
      (Request.insert c.Name reactPackage.toBSON)).2 w.nextSession database findCmd).2
      c.Database.Session.id c.Database.Name statsCmd).2 w.nextSession database statsCmd).1.latency,
    ?_⟩
  simp only [htr]
  simp [requests, List.filterMap_append, tcInsertEvents, statsPrints, trackedEnv, trackedExec,
    statsCmd, findCmd, hne, hne2]

/-- Witness of C3: `testConcurrent` as `main` calls it, over a tracking store in which every
request succeeds. -/
theorem C3_statistics_per_session_witness :
    acctCollection.Database.Session.id <
      (setupWorld (trackedEnv okEnv statsDoc) "acct" "key" ⟨(), fun _ => none⟩ 0).nextSession ∧
    ∃ r1 r2 t3 t4,
      requests (testConcurrent "acct" acctCollection ⟨0⟩ (trackedEnv okEnv statsDoc)
        (setupWorld (trackedEnv okEnv statsDoc) "acct" "key" ⟨(), fun _ => none⟩ 0)).2.trace =
        requests (setupWorld (trackedEnv okEnv statsDoc) "acct" "key"
          ⟨(), fun _ => none⟩ 0).trace ++
        [(0, "acct", Request.insert "package" reactPackage.toBSON, r1),
         (1, "acct", findCmd, r2),
         (0, "acct", statsCmd,
           ⟨none, some (statsDoc (some (Request.insert "package" reactPackage.toBSON))), t3⟩),
         (1, "acct", statsCmd, ⟨none, some (statsDoc (some findCmd)), t4⟩)] :=
  ⟨by decide,
    (C3_statistics_per_session okEnv statsDoc "acct" acctCollection ⟨0⟩
      (setupWorld (trackedEnv okEnv statsDoc) "acct" "key" ⟨(), fun _ => none⟩ 0)
      (by decide) rfl rfl).2⟩

/-- C4: over a document store in which insert stores the marshalled document (lower-cased
field names) with a fresh non-empty `_id` when it has none, and find-one returns a stored
document that satisfies the equality filter: when the collection `package` of the database
holds no document whose `fullname` is `react`, the insert of `testConcurrent` succeeds and its
find by `fullname` = `react` succeeds and leaves in `result` the record with FullName `react`,
Description `A framework for building native apps with React.`, StarsCount 48794, ForksCount
11392, LastUpdatedBy `shergin` and the identifier the store assigned, which is not empty.
The run of `testConcurrent` is its statements up to the find (`testConcurrentFind`, whose
value is `collection2`, `result` and `err` after the find) followed by the rest; the second
part states the value of the first in the world in which the body of `testConcurrent` starts,
the third the store commands of the whole call with their replies. -/
theorem C4_insert_then_find (env : Env DocStore) (newId : Nat → String) (database : String)
    (c : Collection) (s : Session) (w : World DocStore)
    (hexec : env.exec = docExec newId)
    (hid : ∀ n, newId n ≠ "")
    (hdb : c.Database.Name = database) (hname : c.Name = "package")
    (hnone : ∀ d ∈ w.store.docs database "package",
      d.lookup "fullname" ≠ some (Value.str "react")) :
    testConcurrent database c s env w =
      func (Go.bind (testConcurrentFind database c s)
        (fun r => testConcurrentRest c r.1 r.2.2)) env w ∧
    (testConcurrentFind database c s env { w with frames := [] :: w.frames }).1 =
      Flow.next
        (⟨⟨⟨w.nextSession⟩, database⟩, "package"⟩,
         { Id := newId w.store.serial
           FullName := "react"
           Description := "A framework for building native apps with React."
           StarsCount := 48794
           ForksCount := 11392
           LastUpdatedBy := "shergin" },
         none) ∧
    newId w.store.serial ≠ "" ∧
    requests (testConcurrent database c s env w).2.trace =
      requests w.trace ++
      [(c.Database.Session.id, database,
         Request.insert "package"
           [("fullname", Value.str "react"),
            ("description", Value.str "A framework for building native apps with React."),
            ("starscount", Value.int 48794),
            ("forkscount", Value.int 11392),
            ("lastupdatedby", Value.str "shergin")],
         ⟨none, none, 0⟩),
       (w.nextSession, database,
         Request.findOne "package" [("fullname", Value.str "react")],
         ⟨none,
          some [("_id", Value.oid (newId w.store.serial)),
            ("fullname", Value.str "react"),
            ("description", Value.str "A framework for building native apps with React."),
            ("starscount", Value.int 48794),
            ("forkscount", Value.int 11392),
            ("lastupdatedby", Value.str "shergin")],
          0⟩),
       (c.Database.Session.id, database,
         Request.run [("getLastRequestStatistics", Value.int 1)], ⟨none, none, 0⟩),
       (w.nextSession, database,
         Request.run [("getLastRequestStatistics", Value.int 1)], ⟨none, none, 0⟩)] := by
  have hdoc : reactPackage.toBSON =
      [("fullname", Value.str "react"),
       ("description", Value.str "A framework for building native apps with React."),
       ("starscount", Value.int 48794),
       ("forkscount", Value.int 11392),
       ("lastupdatedby", Value.str "shergin")] := by decide
  have hfind : ∀ (l : List Doc), (∀ x ∈ l, x.lookup "fullname" ≠ some (Value.str "react")) →
      (l ++ [("_id", Value.oid (newId w.store.serial)) :: reactPackage.toBSON]).find?
        (matchesFilter [("fullname", Value.str "react")]) =
      some (("_id", Value.oid (newId w.store.serial)) :: reactPackage.toBSON) := by
    intro l hl
    apply find_after_append
    · intro x hx
      have := hl x hx
      simp [matchesFilter, this]
    · rw [hdoc]
      simp [matchesFilter, List.lookup]
  have hlk : (reactPackage.toBSON.lookup "_id").isSome = false := by decide
  have q1 : env.exec w.store c.Database.Session.id c.Database.Name
      (Request.insert c.Name reactPackage.toBSON) =
      (⟨none, none, 0⟩,
        { docs := fun d c => if d = database ∧ c = "package" then
            w.store.docs d c ++ [("_id", Value.oid (newId w.store.serial)) :: reactPackage.toBSON]
            else w.store.docs d c
          serial := w.store.serial + 1 }) := by
    simp [hexec, docExec, hdb, hname, hlk]
  refine ⟨?_, ?_, hid _, ?_⟩
  · exact testConcurrent_split database c s env w
  · simp [testConcurrentFind, Session.Copy, Session.DB, Database.C, Collection.Insert,
      Collection.FindOne, floatConv, send, bind, Go.bind, pure, Go.pure, q1,
      hexec, docExec, hfind _ hnone]
    simp [hdoc, Package.fromBSON, Package.setElem, Value.asString, Value.asInt]
  · obtain ⟨w1, htc, _, htr⟩ := testConcurrent_ok env database c s w _ _ _ _
      q1 rfl rfl rfl rfl
      (by simp [hexec, docExec, findCmd, hfind _ hnone])
      (by simp [hexec, docExec, findCmd, hfind _ hnone, statsCmd])
      (by simp [hexec, docExec, findCmd, hfind _ hnone, statsCmd])
    rw [htc]
    simp only [htr]
    simp [requests, List.filterMap_append, tcInsertEvents, statsPrints, hexec, docExec, findCmd,
      hfind _ hnone, statsCmd, hdb, hname]
    exact hdoc

/-- Witness of C4: `testConcurrent` as `main` calls it, over an empty document store. -/
theorem C4_insert_then_find_witness :
    (∀ n : Nat, sampleId n ≠ "") ∧
    (testConcurrentFind "acct" acctCollection ⟨0⟩ docEnv
      { setupWorld docEnv "acct" "key" ⟨fun _ _ => [], 0⟩ 0 with
        frames := [] :: (setupWorld docEnv "acct" "key" ⟨fun _ _ => [], 0⟩ 0).frames }).1 =
      Flow.next
        (⟨⟨⟨1⟩, "acct"⟩, "package"⟩,
         { Id := "5f0c1a2b3c4d"
           FullName := "react"
           Description := "A framework for building native apps with React."
           StarsCount := 48794
           ForksCount := 11392
           LastUpdatedBy := "shergin" },
         none) :=
  ⟨fun _ => (by decide : "5f0c1a2b3c4d" ≠ ""),
    (C4_insert_then_find docEnv sampleId "acct" acctCollection ⟨0⟩
      (setupWorld docEnv "acct" "key" ⟨fun _ _ => [], 0⟩ 0) rfl
      (fun _ => (by decide : "5f0c1a2b3c4d" ≠ "")) rfl rfl
      (fun d hd => by simp [setupWorld] at hd)).2.1⟩

/-- C5: for every label and every handle, `getStats` issues exactly one command
`getLastRequestStatistics` with value 1 on the database of the handle, then prints the label,
the line `Duration: ` with the time the call took, the line `Charge: ` with the value under
the key `RequestCharge` of the returned document (nil when there is no document or no such
key), and the separator line, in this order; it
ends the process through `log.Fatal` exactly when the command returned an error, and falls
through to its caller otherwise. -/
theorem C5_getStats {σ : Type} (msg : String) (c : Collection) (env : Env σ) (w : World σ) :
    (getStats msg c env w).2.trace =
      w.trace ++
      [Event.request c.Database.Session.id c.Database.Name (w.safety c.Database.Session.id)
         (Request.run [("getLastRequestStatistics", Value.int 1)]) (statsAnswer env w c),
       Event.stdout (msg ++ "\n"),
       Event.stdout ("Duration: " ++ env.fmtDuration (statsAnswer env w c).latency),
       Event.stdout "\n",
       Event.stdout ("Charge: " ++ env.fmtF
         (match (statsAnswer env w c).doc with
          | some d => d.lookup "RequestCharge"
          | none => none)),
       Event.stdout "\n",
       Event.stdout "-------------------------\n"] ++
      (match (statsAnswer env w c).err with
       | some e => [Event.fatal ("Error getting diagnostics: " ++ e), Event.exit 1]
       | none => []) ∧
    (getStats msg c env w).2.clock - w.clock = (statsAnswer env w c).latency ∧
    ((getStats msg c env w).1 = Flow.exited 1 ↔ (statsAnswer env w c).err ≠ none) ∧
    ((getStats msg c env w).1 = Flow.next () ↔ (statsAnswer env w c).err = none) := by
  rw [getStats_eq]
  simp only [statsAnswer, statsPrints, statsCmd]
  rcases env.exec w.store c.Database.Session.id c.Database.Name
    (Request.run [("getLastRequestStatistics", Value.int 1)]) with ⟨⟨err, doc, lat⟩, st⟩
  cases err <;> cases doc <;> simp [index]

/-- C6: in every run in which the connection succeeds, the store commands issued are an initial
part of insert, find, statistics, statistics (in program order, none a second time); every
command but the last one issued succeeded, so nothing is issued after a failing command; a
failing command ends the process with status 1 through one `log.Fatal`; and the process ends
normally (status 0) exactly when all four commands were issued and succeeded. -/
theorem C6_failure_is_fatal {σ : Type} (env : Env σ) (a p : String) (store : σ) (clock : Nat)
    (hd : env.dialErr (dialInfo a p) = none) :
    commands (runProgram env a p store clock).world.trace <+:
      [(0, insertCmd), (1, findCmd), (0, statsCmd), (1, statsCmd)] ∧
    (commands (runProgram env a p store clock).world.trace).Nodup ∧
    (∀ x ∈ (requests (runProgram env a p store clock).world.trace).dropLast,
      x.2.2.2.err = none) ∧
    ((∃ x ∈ requests (runProgram env a p store clock).world.trace, x.2.2.2.err ≠ none) →
      (runProgram env a p store clock).status = 1 ∧
      (fatals (runProgram env a p store clock).world.trace).length = 1 ∧
      (runProgram env a p store clock).world.trace.getLast? = some (Event.exit 1)) ∧
    ((runProgram env a p store clock).status = 0 ↔
      commands (runProgram env a p store clock).world.trace =
        [(0, insertCmd), (1, findCmd), (0, statsCmd), (1, statsCmd)] ∧
      ∀ x ∈ requests (runProgram env a p store clock).world.trace, x.2.2.2.err = none) := by
  rcases run_cases env a p store clock with ⟨e, hd1, _, ht⟩ | ⟨e, _, h1, hs, ht⟩ |
    ⟨e, _, h1, h2, hs, ht⟩ | ⟨e, _, h1, h2, h3, hs, ht⟩ | ⟨e, _, h1, h2, h3, h4, hs, ht⟩ |
    ⟨_, h1, h2, h3, h4, hs, ht⟩
  · simp [hd] at hd1
  · simp [ht, hs, commands, requests, fatals, setupEvents, statsPrints, h1, insertCmd, findCmd,
      statsCmd]
  · simp [ht, hs, commands, requests, fatals, setupEvents, statsPrints, h1, h2, insertCmd,
      findCmd, statsCmd]
  · simp [ht, hs, commands, requests, fatals, setupEvents, statsPrints, h1, h2, h3, insertCmd,
      findCmd, statsCmd]
  · simp [ht, hs, commands, requests, fatals, setupEvents, statsPrints, h1, h2, h3, h4,
      insertCmd, findCmd, statsCmd]
  · simp [ht, hs, commands, requests, fatals, setupEvents, statsPrints, h1, h2, h3, h4,
      insertCmd, findCmd, statsCmd]

/-- Witness of C6: a run in which the insert fails. -/
theorem C6_failure_is_fatal_witness :
    insertFailsEnv.dialErr (dialInfo "acct" "key") = none ∧
    commands (runProgram insertFailsEnv "acct" "key" () 0).world.trace = [(0, insertCmd)] ∧
    (runProgram insertFailsEnv "acct" "key" () 0).status = 1 :=
  ⟨rfl, by decide,
    ((C6_failure_is_fatal insertFailsEnv "acct" "key" () 0 rfl).2.2.2.1 (by decide)).1⟩

/-- Counterexample to C7 as stated: in a run in which the connection and all four commands
succeed, `main` leaves through the `return` of line 77 and `Close` is invoked. -/
theorem C7_counterexample :
    okEnv.dialErr (dialInfo "acct" "key") = none ∧
    (runProgram okEnv "acct" "key" () 0).status = 0 ∧
    Event.close 0 ∈ (runProgram okEnv "acct" "key" () 0).world.trace := by
  decide

/-- C7, amended: on the main flow (the connection succeeds and `testConcurrent` returns, so
that `main` leaves through the `return` of line 77 and the process ends with status 0), the
`Close` registered by `main` is invoked exactly once, as the last action of the run. -/
theorem C7_close_runs_on_return {σ : Type} (env : Env σ) (a p : String) (store : σ)
    (clock : Nat) (hd : env.dialErr (dialInfo a p) = none)
    (hs : (runProgram env a p store clock).status = 0) :
    closes (runProgram env a p store clock).world.trace = [0] ∧
    (runProgram env a p store clock).world.trace.getLast? = some (Event.close 0) := by
  rcases run_cases env a p store clock with ⟨e, hd1, _, ht⟩ | ⟨e, _, h1, hs1, ht⟩ |
    ⟨e, _, h1, h2, hs1, ht⟩ | ⟨e, _, h1, h2, h3, hs1, ht⟩ | ⟨e, _, h1, h2, h3, h4, hs1, ht⟩ |
    ⟨_, h1, h2, h3, h4, hs1, ht⟩
  · simp [hd] at hd1
  · simp [hs] at hs1
  · simp [hs] at hs1
  · simp [hs] at hs1
  · simp [hs] at hs1
  · simp [ht, closes, setupEvents, statsPrints]

/-- Witness of C7, amended: a run in which everything succeeds. -/
theorem C7_close_runs_on_return_witness :
    okEnv.dialErr (dialInfo "acct" "key") = none ∧
    (runProgram okEnv "acct" "key" () 0).status = 0 ∧
    closes (runProgram okEnv "acct" "key" () 0).world.trace = [0] ∧
    (runProgram okEnv "acct" "key" () 0).world.trace.getLast? = some (Event.close 0) :=
  ⟨rfl, by decide, C7_close_runs_on_return okEnv "acct" "key" () 0 rfl (by decide)⟩

/-- C8, the run that breaks it: the connection succeeds and the insert fails with `EOF`.  The
process ends with status 1 through `log.Fatal`, `Close` is never invoked, and the call deferred
by `main` is still pending when the process is gone. -/
theorem C8_close_skipped_on_fatal :
    insertFailsEnv.dialErr (dialInfo "acct" "key") = none ∧
    (runProgram insertFailsEnv "acct" "key" () 0).status = 1 ∧
    fatals (runProgram insertFailsEnv "acct" "key" () 0).world.trace = ["Error testing: EOF"] ∧
    closes (runProgram insertFailsEnv "acct" "key" () 0).world.trace = [] ∧
    (runProgram insertFailsEnv "acct" "key" () 0).world.frames = [[], [Deferred.close 0]] := by
  decide

/-- C9: in every run, the statements of `main` after the `return` of line 77 are not executed:
no update and no delete is ever issued, the store commands are an initial part of insert on the
original session, find on the copy, statistics on the original session, statistics on the
copy, and in a fully successful run (status 0) they are exactly these four. -/
theorem C9_crud_skipped {σ : Type} (env : Env σ) (a p : String) (store : σ) (clock : Nat) :
    (∀ x ∈ commands (runProgram env a p store clock).world.trace,
      x.2.isUpdate = false ∧ x.2.isRemove = false) ∧
    commands (runProgram env a p store clock).world.trace <+:
      [(0, insertCmd), (1, findCmd), (0, statsCmd), (1, statsCmd)] ∧
    ((runProgram env a p store clock).status = 0 →
      commands (runProgram env a p store clock).world.trace =
        [(0, insertCmd), (1, findCmd), (0, statsCmd), (1, statsCmd)]) := by
  rcases run_cases env a p store clock with ⟨e, hd1, hs, ht⟩ | ⟨e, _, h1, hs, ht⟩ |
    ⟨e, _, h1, h2, hs, ht⟩ | ⟨e, _, h1, h2, h3, hs, ht⟩ | ⟨e, _, h1, h2, h3, h4, hs, ht⟩ |
    ⟨_, h1, h2, h3, h4, hs, ht⟩ <;>
  simp [ht, hs, commands, requests, setupEvents, statsPrints, insertCmd, findCmd, statsCmd,
    Request.isUpdate, Request.isRemove]

/-- Witness of C9: the four commands of a run in which everything succeeds. -/
theorem C9_crud_skipped_witness :
    (runProgram okEnv "acct" "key" () 0).status = 0 ∧
    commands (runProgram okEnv "acct" "key" () 0).world.trace =
      [(0, insertCmd), (1, findCmd), (0, statsCmd), (1, statsCmd)] :=
  ⟨by decide, (C9_crud_skipped okEnv "acct" "key" () 0).2.2 (by decide)⟩

/-- C10: in every run, every write sent to the store is recorded with the safety mode
`&mgo.Safe{}` (never with the nil mode of fire-and-forget), no session is ever put into the nil
mode, and before any write on a session that session was put into safe mode by
`SetSafe(&mgo.Safe{})`. -/
theorem C10_writes_in_safe_mode {σ : Type} (env : Env σ) (a p : String) (store : σ)
    (clock : Nat) :
    (∀ s db safe req reply,
      Event.request s db safe req reply ∈ (runProgram env a p store clock).world.trace →
      req.isWrite = true → safe = some {}) ∧
    (∀ s, Event.setSafe s none ∉ (runProgram env a p store clock).world.trace) ∧
    (∀ pre post s db safe req reply,
      (runProgram env a p store clock).world.trace =
        pre ++ Event.request s db safe req reply :: post →
      req.isWrite = true → Event.setSafe s (some {}) ∈ pre) := by
  have key : ∀ s db safe req reply,
      Event.request s db safe req reply ∈ (runProgram env a p store clock).world.trace →
      req.isWrite = true → s = 0 ∧ safe = some {} ∧
        ∃ rest, (runProgram env a p store clock).world.trace = setupEvents a p ++ rest := by
    intro s db safe req reply hm hw
    rcases run_cases env a p store clock with ⟨e, hd1, hs, ht⟩ | ⟨e, _, h1, hs, ht⟩ |
      ⟨e, _, h1, h2, hs, ht⟩ | ⟨e, _, h1, h2, h3, hs, ht⟩ | ⟨e, _, h1, h2, h3, h4, hs, ht⟩ |
      ⟨_, h1, h2, h3, h4, hs, ht⟩ <;>
    (try simp only [List.append_assoc] at ht) <;>
    rw [ht] at hm <;>
    simp only [setupEvents, statsPrints, List.mem_append, List.mem_cons, List.mem_singleton,
      List.not_mem_nil, Event.request.injEq, reduceCtorEq, false_or, or_false] at hm <;>
    (try casesm* _ ∨ _) <;>
    (try (obtain ⟨rfl, rfl, rfl, rfl, rfl⟩ := ‹_ ∧ _ ∧ _ ∧ _ ∧ _›)) <;>
    first
      | exact ⟨rfl, rfl, _, ht⟩
      | (simp [Request.isWrite, findCmd, statsCmd] at hw)
  refine ⟨fun s db safe req reply hm hw => (key s db safe req reply hm hw).2.1, ?_, ?_⟩
  · intro s
    rcases run_cases env a p store clock with ⟨e, hd1, hs, ht⟩ | ⟨e, _, h1, hs, ht⟩ |
      ⟨e, _, h1, h2, hs, ht⟩ | ⟨e, _, h1, h2, h3, hs, ht⟩ | ⟨e, _, h1, h2, h3, h4, hs, ht⟩ |
      ⟨_, h1, h2, h3, h4, hs, ht⟩ <;>
    simp [ht, setupEvents, statsPrints]
  · intro pre post s db safe req reply hsplit hw
    have hm : Event.request s db safe req reply ∈
        (runProgram env a p store clock).world.trace := by
      simp [hsplit]
    obtain ⟨rfl, rfl, rest, ht⟩ := key s db safe req reply hm hw
    rw [ht] at hsplit
    exact subset_of_split _ _ _ _ _ hsplit (by simp [setupEvents]) _ (by simp [setupEvents])

/-- Witness of C10: the insert of a run in which everything succeeds is recorded in safe
mode. -/
theorem C10_writes_in_safe_mode_witness :
    Event.request 0 "acct" (some {}) insertCmd ⟨none, none, 5⟩ ∈
      (runProgram okEnv "acct" "key" () 0).world.trace ∧
    (some {} : Option Safe) = some {} :=
  ⟨by decide,
    (C10_writes_in_safe_mode okEnv "acct" "key" () 0).1 0 "acct" (some {}) insertCmd
      ⟨none, none, 5⟩ (by decide) rfl⟩

end CosmosDemo
